import Mathlib

/-!
Verification of the RADON script-engine claims for witnet-rust.

The definitions below are a shallow embedding of the code under
`src/rad/src/operators/array.rs`, `src/rad/src/operators/mod.rs`
and `src/rad/src/reducers/mod.rs`.  Supporting items that the
repository keeps in files outside those three (the dynamic value type
`RadonTypes`, the error type `RadError`, `RadonArray::is_homogeneous`,
`execute_radon_script`, the statistical reducer implementations and the
`ActiveWips` feature-flag set) are modelled from the specification and
are marked as such in their doc comments.

Rust `Result<T, RadError>` is embedded as `Except RadError T`;
`i128`, `i64` and `i32` are embedded as `Int` with explicit range and
wrap-around arithmetic where the code performs casts; `f64` is embedded
as `ℚ`, which is faithful for every float value the claims evaluate
(small integers and halves, all exactly representable, and no rounding
arithmetic is exercised).
-/

namespace Witnet

set_option maxRecDepth 8000

/-- Embedding of `serde_cbor::value::Value`, the CBOR argument type the
operators receive (only the shapes the claims exercise). -/
inductive Value where
  | Null : Value
  | Boolean : Bool → Value
  | Integer : Int → Value
  | Text : String → Value
deriving DecidableEq

/-- Modelled from the spec: §3's closed set of runtime value kinds, as the
tagged union `RadonTypes` (defined in `rad/src/types`, outside `src/`).
The constructor names follow the variant names visible in the source's
test assertions (`RadonTypes::RadonInteger(8)`).  Errors are not a value
variant in this code base: fallible operators return `Result`, embedded
here as `Except`. -/
inductive RadonTypes where
  | RadonBoolean : Bool → RadonTypes
  | RadonInteger : Int → RadonTypes
  | RadonFloat : ℚ → RadonTypes
  | RadonString : String → RadonTypes
  | RadonBytes : List Nat → RadonTypes
  | RadonArray : List RadonTypes → RadonTypes

/-- Modelled from the spec: the `KindTag` each value kind exposes for
dispatch and for the reducers' homogeneity check (§4.A, §4.C). -/
inductive RadonKind where
  | KBoolean : RadonKind
  | KInteger : RadonKind
  | KFloat : RadonKind
  | KString : RadonKind
  | KBytes : RadonKind
  | KArray : RadonKind
deriving DecidableEq

/-- Modelled from the spec: `kind()` returns the tag of the variant (§4.A). -/
def RadonTypes.kind : RadonTypes → RadonKind
  | .RadonBoolean _ => .KBoolean
  | .RadonInteger _ => .KInteger
  | .RadonFloat _ => .KFloat
  | .RadonString _ => .KString
  | .RadonBytes _ => .KBytes
  | .RadonArray _ => .KArray

/-- The kind name of a value as the Rust type name, used in
`UnsupportedOperator` payloads. -/
def RadonTypes.kindName : RadonTypes → String
  | .RadonBoolean _ => "RadonBoolean"
  | .RadonInteger _ => "RadonInteger"
  | .RadonFloat _ => "RadonFloat"
  | .RadonString _ => "RadonString"
  | .RadonBytes _ => "RadonBytes"
  | .RadonArray _ => "RadonArray"

/-- The `Display` rendering of a `RadonTypes` value, as asserted by the
source's own test `test_filter_negative`
(`"RadonTypes::RadonInteger(8)"`).  Only the integer case is attested by
a test; the other cases follow the same scheme. -/
def RadonTypes.display : RadonTypes → String
  | .RadonBoolean b => "RadonTypes::RadonBoolean(" ++ toString b ++ ")"
  | .RadonInteger i => "RadonTypes::RadonInteger(" ++ toString i ++ ")"
  | .RadonFloat q => "RadonTypes::RadonFloat(" ++ toString q ++ ")"
  | .RadonString s => "RadonTypes::RadonString(" ++ s ++ ")"
  | .RadonBytes _ => "RadonTypes::RadonBytes"
  | .RadonArray _ => "RadonTypes::RadonArray"

/-- Modelled from the spec: the error type `RadError`
(`rad/src/error.rs`, outside `src/`), restricted to the variants the
code under `src/` constructs, with the payloads it gives them. -/
inductive RadError where
  | WrongArguments : String → String → List Value → RadError
  | ArrayIndexNotFound : Int → RadError
  | ArrayFilterWrongSubscript : String → RadError
  | UnsupportedReducer : List RadonTypes → String → RadError
  | UnsupportedOpNonHomogeneous : String → RadError
  | UnsupportedOperator : String → String → RadError
  | Overflow : RadError
  | Unknown : RadError

/-- The `RadonOpCodes` enum from `src/rad/src/operators/mod.rs`: every
variant that is not commented out in the source, in source order. -/
inductive RadonOpCodes where
  | Fail : RadonOpCodes
  | Identity : RadonOpCodes
  | ArrayCount : RadonOpCodes
  | ArrayFilter : RadonOpCodes
  | ArrayMap : RadonOpCodes
  | ArrayReduce : RadonOpCodes
  | ArraySort : RadonOpCodes
  | BooleanNegate : RadonOpCodes
  | BytesAsString : RadonOpCodes
  | BytesHash : RadonOpCodes
  | IntegerAbsolute : RadonOpCodes
  | IntegerAsFloat : RadonOpCodes
  | IntegerAsString : RadonOpCodes
  | IntegerGreaterThan : RadonOpCodes
  | IntegerLessThan : RadonOpCodes
  | IntegerModulo : RadonOpCodes
  | IntegerMultiply : RadonOpCodes
  | IntegerNegate : RadonOpCodes
  | IntegerPower : RadonOpCodes
  | FloatAbsolute : RadonOpCodes
  | FloatAsString : RadonOpCodes
  | FloatCeiling : RadonOpCodes
  | FloatGreaterThan : RadonOpCodes
  | FloatFloor : RadonOpCodes
  | FloatLessThan : RadonOpCodes
  | FloatModulo : RadonOpCodes
  | FloatMultiply : RadonOpCodes
  | FloatNegate : RadonOpCodes
  | FloatPower : RadonOpCodes
  | FloatRound : RadonOpCodes
  | FloatTruncate : RadonOpCodes
  | MapKeys : RadonOpCodes
  | StringAsBoolean : RadonOpCodes
  | StringAsFloat : RadonOpCodes
  | StringAsInteger : RadonOpCodes
  | StringLength : RadonOpCodes
  | StringMatch : RadonOpCodes
  | StringToLowerCase : RadonOpCodes
  | StringToUpperCase : RadonOpCodes
  | MixedAsArray : RadonOpCodes
  | MixedAsBoolean : RadonOpCodes
  | MixedAsFloat : RadonOpCodes
  | MixedAsInteger : RadonOpCodes
  | MixedAsMap : RadonOpCodes
  | MixedAsString : RadonOpCodes
  | Get : RadonOpCodes
  | BooleanAsString : RadonOpCodes
  | IntegerAsMixed : RadonOpCodes
  | FloatAsMixed : RadonOpCodes
  | StringAsMixed : RadonOpCodes
  | StringParseJSON : RadonOpCodes
  | ArrayGet : RadonOpCodes
  | MapGet : RadonOpCodes
  | MapValues : RadonOpCodes
deriving DecidableEq

/-- The `repr(u8)` discriminant of each `RadonOpCodes` variant, exactly as
assigned in `src/rad/src/operators/mod.rs`. -/
def RadonOpCodes.toNat : RadonOpCodes → Nat
  | .Fail => 0xFF
  | .Identity => 0x00
  | .ArrayCount => 0x10
  | .ArrayFilter => 0x11
  | .ArrayMap => 0x1A
  | .ArrayReduce => 0x1B
  | .ArraySort => 0x1D
  | .BooleanNegate => 0x21
  | .BytesAsString => 0x30
  | .BytesHash => 0x31
  | .IntegerAbsolute => 0x40
  | .IntegerAsFloat => 0x41
  | .IntegerAsString => 0x42
  | .IntegerGreaterThan => 0x43
  | .IntegerLessThan => 0x44
  | .IntegerModulo => 0x46
  | .IntegerMultiply => 0x47
  | .IntegerNegate => 0x48
  | .IntegerPower => 0x49
  | .FloatAbsolute => 0x50
  | .FloatAsString => 0x51
  | .FloatCeiling => 0x52
  | .FloatGreaterThan => 0x53
  | .FloatFloor => 0x54
  | .FloatLessThan => 0x55
  | .FloatModulo => 0x56
  | .FloatMultiply => 0x57
  | .FloatNegate => 0x58
  | .FloatPower => 0x59
  | .FloatRound => 0x5B
  | .FloatTruncate => 0x5D
  | .MapKeys => 0x68
  | .StringAsBoolean => 0x70
  | .StringAsFloat => 0x72
  | .StringAsInteger => 0x73
  | .StringLength => 0x74
  | .StringMatch => 0x75
  | .StringToLowerCase => 0x7D
  | .StringToUpperCase => 0x7E
  | .MixedAsArray => 0x80
  | .MixedAsBoolean => 0x81
  | .MixedAsFloat => 0x82
  | .MixedAsInteger => 0x83
  | .MixedAsMap => 0x84
  | .MixedAsString => 0x85
  | .Get => 0xA0
  | .BooleanAsString => 0xA1
  | .IntegerAsMixed => 0xA2
  | .FloatAsMixed => 0xA3
  | .StringAsMixed => 0xA4
  | .StringParseJSON => 0xA5
  | .ArrayGet => 0xA6
  | .MapGet => 0xA7
  | .MapValues => 0xA8

/-- The `Display` rendering of an opcode (`write!(f, "{:?}", self)` in the
source prints the variant name). -/
def RadonOpCodes.display : RadonOpCodes → String
  | .Fail => "Fail"
  | .Identity => "Identity"
  | .ArrayCount => "ArrayCount"
  | .ArrayFilter => "ArrayFilter"
  | .ArrayMap => "ArrayMap"
  | .ArrayReduce => "ArrayReduce"
  | .ArraySort => "ArraySort"
  | .BooleanNegate => "BooleanNegate"
  | .BytesAsString => "BytesAsString"
  | .BytesHash => "BytesHash"
  | .IntegerAbsolute => "IntegerAbsolute"
  | .IntegerAsFloat => "IntegerAsFloat"
  | .IntegerAsString => "IntegerAsString"
  | .IntegerGreaterThan => "IntegerGreaterThan"
  | .IntegerLessThan => "IntegerLessThan"
  | .IntegerModulo => "IntegerModulo"
  | .IntegerMultiply => "IntegerMultiply"
  | .IntegerNegate => "IntegerNegate"
  | .IntegerPower => "IntegerPower"
  | .FloatAbsolute => "FloatAbsolute"
  | .FloatAsString => "FloatAsString"
  | .FloatCeiling => "FloatCeiling"
  | .FloatGreaterThan => "FloatGreaterThan"
  | .FloatFloor => "FloatFloor"
  | .FloatLessThan => "FloatLessThan"
  | .FloatModulo => "FloatModulo"
  | .FloatMultiply => "FloatMultiply"
  | .FloatNegate => "FloatNegate"
  | .FloatPower => "FloatPower"
  | .FloatRound => "FloatRound"
  | .FloatTruncate => "FloatTruncate"
  | .MapKeys => "MapKeys"
  | .StringAsBoolean => "StringAsBoolean"
  | .StringAsFloat => "StringAsFloat"
  | .StringAsInteger => "StringAsInteger"
  | .StringLength => "StringLength"
  | .StringMatch => "StringMatch"
  | .StringToLowerCase => "StringToLowerCase"
  | .StringToUpperCase => "StringToUpperCase"
  | .MixedAsArray => "MixedAsArray"
  | .MixedAsBoolean => "MixedAsBoolean"
  | .MixedAsFloat => "MixedAsFloat"
  | .MixedAsInteger => "MixedAsInteger"
  | .MixedAsMap => "MixedAsMap"
  | .MixedAsString => "MixedAsString"
  | .Get => "Get"
  | .BooleanAsString => "BooleanAsString"
  | .IntegerAsMixed => "IntegerAsMixed"
  | .FloatAsMixed => "FloatAsMixed"
  | .StringAsMixed => "StringAsMixed"
  | .StringParseJSON => "StringParseJSON"
  | .ArrayGet => "ArrayGet"
  | .MapGet => "MapGet"
  | .MapValues => "MapValues"

/-- The `RadonReducers` enum from `src/rad/src/reducers/mod.rs`, both the
implemented and the not-implemented variants. -/
inductive RadonReducers where
  | Mode : RadonReducers
  | AverageMean : RadonReducers
  | AverageMedian : RadonReducers
  | DeviationStandard : RadonReducers
  | HashConcatenate : RadonReducers
  | Unwrap : RadonReducers
  | Min : RadonReducers
  | Max : RadonReducers
  | AverageMeanWeighted : RadonReducers
  | AverageMedianWeighted : RadonReducers
  | DeviationAverageAbsolute : RadonReducers
  | DeviationMedianAbsolute : RadonReducers
  | DeviationMaximumAbsolute : RadonReducers
deriving DecidableEq

/-- The `repr(u8)` discriminant of each `RadonReducers` variant, exactly
as assigned in `src/rad/src/reducers/mod.rs`. -/
def RadonReducers.toNat : RadonReducers → Nat
  | .Mode => 0x02
  | .AverageMean => 0x03
  | .AverageMedian => 0x05
  | .DeviationStandard => 0x07
  | .HashConcatenate => 0x0b
  | .Unwrap => 0x0c
  | .Min => 0x00
  | .Max => 0x01
  | .AverageMeanWeighted => 0x04
  | .AverageMedianWeighted => 0x06
  | .DeviationAverageAbsolute => 0x08
  | .DeviationMedianAbsolute => 0x09
  | .DeviationMaximumAbsolute => 0x0a

/-- The `Display` impl in `src/rad/src/reducers/mod.rs`:
`write!(f, "RadonReducers::{:?}", self)`. -/
def RadonReducers.display : RadonReducers → String
  | .Mode => "RadonReducers::Mode"
  | .AverageMean => "RadonReducers::AverageMean"
  | .AverageMedian => "RadonReducers::AverageMedian"
  | .DeviationStandard => "RadonReducers::DeviationStandard"
  | .HashConcatenate => "RadonReducers::HashConcatenate"
  | .Unwrap => "RadonReducers::Unwrap"
  | .Min => "RadonReducers::Min"
  | .Max => "RadonReducers::Max"
  | .AverageMeanWeighted => "RadonReducers::AverageMeanWeighted"
  | .AverageMedianWeighted => "RadonReducers::AverageMedianWeighted"
  | .DeviationAverageAbsolute => "RadonReducers::DeviationAverageAbsolute"
  | .DeviationMedianAbsolute => "RadonReducers::DeviationMedianAbsolute"
  | .DeviationMaximumAbsolute => "RadonReducers::DeviationMaximumAbsolute"

/-- `RadonReducers::from_i64` (the `FromPrimitive` conversion used by
`src/rad/src/operators/array.rs`): an `i64` maps to the variant whose
discriminant it equals, and to `None` otherwise. -/
def RadonReducers.fromI64 (n : Int) : Option RadonReducers :=
  if n = 0x02 then some .Mode
  else if n = 0x03 then some .AverageMean
  else if n = 0x05 then some .AverageMedian
  else if n = 0x07 then some .DeviationStandard
  else if n = 0x0b then some .HashConcatenate
  else if n = 0x0c then some .Unwrap
  else if n = 0x00 then some .Min
  else if n = 0x01 then some .Max
  else if n = 0x04 then some .AverageMeanWeighted
  else if n = 0x06 then some .AverageMedianWeighted
  else if n = 0x08 then some .DeviationAverageAbsolute
  else if n = 0x09 then some .DeviationMedianAbsolute
  else if n = 0x0a then some .DeviationMaximumAbsolute
  else none

/-- Modelled from the spec: `ActiveWips` (kept in the data-structures
crate, outside `src/`) is "a set of named feature flags queried at
operator dispatch time"; only the two flags the reducers query are
modelled. -/
structure ActiveWips where
  wip0017 : Bool
  wip0019 : Bool

/-- Modelled from the spec: the part of `ReportContext` the reducers
read, namely its optional set of active feature flags (§4.F). -/
structure ReportContext where
  active_wips : Option ActiveWips

/-- Modelled from the spec: `RadonArray::is_homogeneous` (defined in
`rad/src/types/array.rs`, outside `src/`) — "every element shares the
head element's kind" (§4.C); vacuously true on the empty array, whose
handling `reducers::reduce` decides separately via `is_empty`. -/
def isHomogeneous : List RadonTypes → Bool
  | [] => true
  | x :: xs => xs.all fun y => decide (y.kind = x.kind)

/-- `serde_cbor::value::from_value::<i64>`: succeeds exactly on CBOR
integers within the `i64` range. -/
def fromValueI64 : Value → Option Int
  | .Integer n => if -(2 ^ 63) ≤ n ∧ n < 2 ^ 63 then some n else none
  | _ => none

/-- `serde_cbor::value::from_value::<i32>`: succeeds exactly on CBOR
integers within the `i32` range. -/
def fromValueI32 : Value → Option Int
  | .Integer n => if -(2 ^ 31) ≤ n ∧ n < 2 ^ 31 then some n else none
  | _ => none

/-- The reducer implementations that live outside `src/`
(`average::mean`, `mode::mode`, `deviation::standard`,
`median::median`, `hash_concatenate::hash_concatenate`).
`src/rad/src/reducers/mod.rs` only calls them, so they are kept
abstract as a record of functions; the claims that need one of them
instantiate it with a definition modelled from the spec. -/
structure ReducerImpls where
  mean : List RadonTypes → Except RadError RadonTypes
  mode : List RadonTypes → Except RadError RadonTypes
  deviationStandard : List RadonTypes → Except RadError RadonTypes
  median : List RadonTypes → Except RadError RadonTypes
  hashConcatenate : List RadonTypes → Except RadError RadonTypes

/-- `unwrap` from `src/rad/src/reducers/mod.rs`: error unless the array
has exactly one element, which is then returned. -/
def unwrap (input : List RadonTypes) : Except RadError RadonTypes :=
  if input.head?.isNone || decide (input.length > 1) then
    Except.error (RadError.UnsupportedReducer input RadonReducers.Unwrap.display)
  else
    match input.head? with
    | some v => Except.ok v
    | none => Except.error (RadError.UnsupportedReducer input RadonReducers.Unwrap.display)

/-- `reduce` from `src/rad/src/reducers/mod.rs`.  The reducer bodies that
live outside `src/` are taken from `impls`; `unwrap`, the homogeneity
gate and the feature-flag gates are translated directly from the
source. -/
def reducersReduce (impls : ReducerImpls) (input : List RadonTypes)
    (reducer_code : RadonReducers) (context : ReportContext) :
    Except RadError RadonTypes :=
  let error := Except.error (RadError.UnsupportedReducer input reducer_code.display)
  if isHomogeneous input || input.isEmpty then
    match reducer_code with
    | .AverageMean => impls.mean input
    | .Mode => impls.mode input
    | .DeviationStandard => impls.deviationStandard input
    | .AverageMedian =>
      match context.active_wips with
      | some active_wips => if active_wips.wip0017 then impls.median input else error
      | none => error
    | .HashConcatenate =>
      match context.active_wips with
      | some active_wips => if active_wips.wip0019 then impls.hashConcatenate input else error
      | none => error
    | .Unwrap =>
      match context.active_wips with
      | some active_wips => if active_wips.wip0019 then unwrap input else error
      | none => error
    | _ => error
  else
    Except.error (RadError.UnsupportedOpNonHomogeneous reducer_code.display)

/-- `reduce` from `src/rad/src/operators/array.rs`: decode the first
CBOR argument as an `i64`, convert it to a `RadonReducers` code, and
hand over to `reducers::reduce`; every decoding failure is
`WrongArguments`.  (The copy of `array.rs` under `src/` predates the
context parameter of `reducers::reduce`; the context the caller owns is
threaded through unchanged.) -/
def arrayReduce (impls : ReducerImpls) (input : List RadonTypes)
    (args : List Value) (context : ReportContext) : Except RadError RadonTypes :=
  let wrong_args := Except.error (RadError.WrongArguments "RadonArray" "Reduce" args)
  match args.head? with
  | none => wrong_args
  | some arg =>
    match fromValueI64 arg with
    | none => wrong_args
    | some reducer_integer =>
      match RadonReducers.fromI64 reducer_integer with
      | none => wrong_args
      | some reducer_code => reducersReduce impls input reducer_code context

/-- The `index as usize` cast in `src/rad/src/operators/array.rs::get`:
two's-complement wrap-around of an `i32` value into the 64-bit unsigned
range. -/
def i32AsUsize (i : Int) : Nat := (i % (2 : Int) ^ 64).toNat

/-- `get` from `src/rad/src/operators/array.rs`: decode the first CBOR
argument as an `i32`, cast it to `usize`, and return the element at that
position or `ArrayIndexNotFound` carrying the decoded index.  (The
source's `wrong_args` closure names the operator "Reduce"; that string
is reproduced as-is.) -/
def arrayGet (input : List RadonTypes) (args : List Value) :
    Except RadError RadonTypes :=
  let wrong_args := Except.error (RadError.WrongArguments "RadonArray" "Reduce" args)
  match args.head? with
  | none => wrong_args
  | some arg =>
    match fromValueI32 arg with
    | none => wrong_args
    | some index =>
      match input.get? (i32AsUsize index) with
      | some v => Except.ok v
      | none => Except.error (RadError.ArrayIndexNotFound index)

/-- The element loop of `map` from `src/rad/src/operators/array.rs`:
push `execute_radon_script(item, subscript)?` for each item, in order.
`execute_radon_script` and `unpack_radon_call` live outside `src/`, so
the already-unpacked subscript enters only through the function `exec`
it induces on single values. -/
def mapLoop (exec : RadonTypes → Except RadError RadonTypes) :
    List RadonTypes → Except RadError (List RadonTypes)
  | [] => Except.ok []
  | item :: rest =>
    match exec item with
    | Except.error e => Except.error e
    | Except.ok v =>
      match mapLoop exec rest with
      | Except.error e => Except.error e
      | Except.ok vs => Except.ok (v :: vs)

/-- `map` from `src/rad/src/operators/array.rs`: run the subscript on
every element and wrap the results back into a `RadonArray`. -/
def arrayMap (exec : RadonTypes → Except RadError RadonTypes)
    (input : List RadonTypes) : Except RadError RadonTypes :=
  (mapLoop exec input).map RadonTypes.RadonArray

/-- The element loop of `filter` from `src/rad/src/operators/array.rs`:
keep the item when the subscript yields `Boolean(true)`, drop it on
`Boolean(false)`, abort with `ArrayFilterWrongSubscript` on any other
value, and propagate subscript errors via `?`. -/
def filterLoop (exec : RadonTypes → Except RadError RadonTypes) :
    List RadonTypes → Except RadError (List RadonTypes)
  | [] => Except.ok []
  | item :: rest =>
    match exec item with
    | Except.error e => Except.error e
    | Except.ok (RadonTypes.RadonBoolean b) =>
      match filterLoop exec rest with
      | Except.error e => Except.error e
      | Except.ok vs => Except.ok (if b then item :: vs else vs)
    | Except.ok value =>
      Except.error (RadError.ArrayFilterWrongSubscript value.display)

/-- `filter` from `src/rad/src/operators/array.rs`: keep exactly the
elements on which the subscript yields `Boolean(true)`. -/
def arrayFilter (exec : RadonTypes → Except RadError RadonTypes)
    (input : List RadonTypes) : Except RadError RadonTypes :=
  (filterLoop exec input).map RadonTypes.RadonArray

/-- A call of a subscript script: an opcode plus its CBOR arguments
(`RadonCall` in `rad/src/script.rs`, outside `src/`). -/
def RadonCall : Type := RadonOpCodes × List Value

/-- Modelled from the spec: operator dispatch (§4.B) for the calls the
claims execute.  `IntegerMultiply` is checked `i128` multiplication
(overflow → `Overflow`), `IntegerGreaterThan` is an integer comparison
returning a Boolean; every other value/opcode combination falls under
dispatch rule 2, "if `v.kind()` has no handler for `op`, fail
`UnsupportedOperator{op, kind}`". -/
def dispatch (v : RadonTypes) (c : RadonCall) : Except RadError RadonTypes :=
  match v, c with
  | RadonTypes.RadonInteger i, (RadonOpCodes.IntegerMultiply, [Value.Integer n]) =>
    if -(2 ^ 127) ≤ i * n ∧ i * n < 2 ^ 127 then
      Except.ok (RadonTypes.RadonInteger (i * n))
    else
      Except.error RadError.Overflow
  | RadonTypes.RadonInteger i, (RadonOpCodes.IntegerGreaterThan, [Value.Integer n]) =>
    Except.ok (RadonTypes.RadonBoolean (decide (i > n)))
  | v, (op, _) =>
    Except.error (RadError.UnsupportedOperator v.kindName op.display)

/-- Modelled from the spec: `execute_radon_script` (§4.D) applies the
calls of a script left-to-right to a seed value, short-circuiting on the
first call that fails. -/
def execScript (script : List RadonCall) (v : RadonTypes) :
    Except RadError RadonTypes :=
  match script with
  | [] => Except.ok v
  | c :: rest =>
    match dispatch v c with
    | Except.error e => Except.error e
    | Except.ok v2 => execScript rest v2

/-- Insertion into a sorted list of rationals, ascending. -/
def insertAsc (x : ℚ) : List ℚ → List ℚ
  | [] => [x]
  | y :: ys => if x ≤ y then x :: y :: ys else y :: insertAsc x ys

/-- Insertion sort of rationals, ascending. -/
def sortAsc : List ℚ → List ℚ
  | [] => []
  | x :: xs => insertAsc x (sortAsc xs)

/-- The `Float` payloads of a list of values, when every element is a
`Float`. -/
def floatValues : List RadonTypes → Option (List ℚ)
  | [] => some []
  | RadonTypes.RadonFloat q :: rest =>
    match floatValues rest with
    | some qs => some (q :: qs)
    | none => none
  | _ => none

/-- Modelled from the spec: `median::median` (outside `src/`) — "middle
element for odd length; mean of two middle for even" (§4.C), on the
Float input kind, the only kind a claim evaluates it on; other inputs
are answered with the reducer's error. -/
def medianModel (input : List RadonTypes) : Except RadError RadonTypes :=
  match floatValues input with
  | some qs =>
    let s := sortAsc qs
    if s.length = 0 then
      Except.error (RadError.UnsupportedReducer input RadonReducers.AverageMedian.display)
    else if s.length % 2 = 1 then
      Except.ok (RadonTypes.RadonFloat (s.getD (s.length / 2) 0))
    else
      Except.ok (RadonTypes.RadonFloat
        ((s.getD (s.length / 2 - 1) 0 + s.getD (s.length / 2) 0) / 2))
  | none =>
    Except.error (RadError.UnsupportedReducer input RadonReducers.AverageMedian.display)

/-- Placeholder for the reducer implementations that live outside `src/`
and that no claim evaluates (mean, mode, standard deviation,
hash-concatenate). -/
def unmodelledReducer (_ : List RadonTypes) : Except RadError RadonTypes :=
  Except.error RadError.Unknown

/-- The record of out-of-`src/` reducer implementations used to
instantiate `reducersReduce` on concrete runs: the median is modelled
from the spec, the reducers no claim evaluates stay placeholders.
Fields: mean, mode, deviationStandard, median, hashConcatenate. -/
def specImpls : ReducerImpls :=
  ⟨unmodelledReducer, unmodelledReducer, unmodelledReducer, medianModel,
    unmodelledReducer⟩

/-- Modelled from the spec: the stable 8-bit error kind each error is
tagged with (§7); `ArrayFilterWrongSubscript` surfaces as
`UnsupportedOperator` (0x20), as scenario 4 of §8 states. -/
def radErrorCode : RadError → Nat
  | .WrongArguments _ _ _ => 0x20
  | .ArrayIndexNotFound _ => 0x31
  | .ArrayFilterWrongSubscript _ => 0x20
  | .UnsupportedReducer _ _ => 0x40
  | .UnsupportedOpNonHomogeneous _ => 0x41
  | .UnsupportedOperator _ _ => 0x20
  | .Overflow => 0x23
  | .Unknown => 0xFF

/-- The `Display` message of the errors the source's tests assert
(`test_filter_negative`, `test_reduce_no_args` and companions). -/
def radErrorMessage : RadError → String
  | .ArrayFilterWrongSubscript value =>
    "ArrayFilter subscript output was not RadonBoolean (was `" ++ value ++ "`)"
  | _ => ""

/-- Whether an error is the `ArrayFilterWrongSubscript` variant. -/
def radErrorIsFilterWrongSubscript : RadError → Bool
  | .ArrayFilterWrongSubscript _ => true
  | _ => false

/-- The `wip0017` flag a context answers (`false` when no flag set is
present, matching the `match`/`_` arm in `reducers::reduce`). -/
def ctxWip0017 (context : ReportContext) : Bool :=
  match context.active_wips with
  | some active_wips => active_wips.wip0017
  | none => false

/-- The `wip0019` flag a context answers. -/
def ctxWip0019 (context : ReportContext) : Bool :=
  match context.active_wips with
  | some active_wips => active_wips.wip0019
  | none => false

/-- The subscript `[IntegerMultiply, 4]` used by §8 scenario 4 and the
source test `test_filter_negative`. -/
def mul4Script : List RadonCall := [(RadonOpCodes.IntegerMultiply, [Value.Integer 4])]

/-- The subscript `[IntegerGreaterThan, 4]` used by §8 scenario 3 and the
source tests `test_map_integer_greater_than` and
`test_filter_integer_greater_than`. -/
def gt4Script : List RadonCall := [(RadonOpCodes.IntegerGreaterThan, [Value.Integer 4])]

/-- The input array `[Float 1, Float 2, Float 2]` of §8 scenario 5. -/
def medianInput : List RadonTypes :=
  [RadonTypes.RadonFloat 1, RadonTypes.RadonFloat 2, RadonTypes.RadonFloat 2]

/-- A non-homogeneous two-element array, `[Integer 1, Float 2.0]`. -/
def hetPair : List RadonTypes :=
  [RadonTypes.RadonInteger 1, RadonTypes.RadonFloat 2]

/-- The value an `Ok` result carries (the loops only apply it to results
known to be `Ok`). -/
def extractOk : Except RadError RadonTypes → RadonTypes
  | .ok v => v
  | .error _ => RadonTypes.RadonArray []

/-- Whether an `Except` result is `Ok`. -/
def exceptIsOk : Except RadError RadonTypes → Bool
  | .ok _ => true
  | .error _ => false

/-- C1: every opcode the spec's §6 table lists has, in the
`RadonOpCodes` enum, exactly the 8-bit value the table assigns to it,
and every reducer of the §4.C table has, in the `RadonReducers` enum,
exactly the code the table assigns to it. -/
theorem opcode_and_reducer_values_match_spec_tables :
    RadonOpCodes.toNat .Identity = 0x00 ∧
    RadonOpCodes.toNat .ArrayCount = 0x10 ∧
    RadonOpCodes.toNat .ArrayFilter = 0x11 ∧
    RadonOpCodes.toNat .ArrayMap = 0x1A ∧
    RadonOpCodes.toNat .ArrayReduce = 0x1B ∧
    RadonOpCodes.toNat .ArraySort = 0x1D ∧
    RadonOpCodes.toNat .BooleanNegate = 0x21 ∧
    RadonOpCodes.toNat .BytesAsString = 0x30 ∧
    RadonOpCodes.toNat .BytesHash = 0x31 ∧
    RadonOpCodes.toNat .IntegerAbsolute = 0x40 ∧
    RadonOpCodes.toNat .IntegerAsFloat = 0x41 ∧
    RadonOpCodes.toNat .IntegerAsString = 0x42 ∧
    RadonOpCodes.toNat .IntegerGreaterThan = 0x43 ∧
    RadonOpCodes.toNat .IntegerLessThan = 0x44 ∧
    RadonOpCodes.toNat .IntegerModulo = 0x46 ∧
    RadonOpCodes.toNat .IntegerMultiply = 0x47 ∧
    RadonOpCodes.toNat .IntegerNegate = 0x48 ∧
    RadonOpCodes.toNat .IntegerPower = 0x49 ∧
    RadonOpCodes.toNat .FloatAbsolute = 0x50 ∧
    RadonOpCodes.toNat .FloatAsString = 0x51 ∧
    RadonOpCodes.toNat .FloatCeiling = 0x52 ∧
    RadonOpCodes.toNat .FloatGreaterThan = 0x53 ∧
    RadonOpCodes.toNat .FloatFloor = 0x54 ∧
    RadonOpCodes.toNat .FloatLessThan = 0x55 ∧
    RadonOpCodes.toNat .FloatModulo = 0x56 ∧
    RadonOpCodes.toNat .FloatMultiply = 0x57 ∧
    RadonOpCodes.toNat .FloatNegate = 0x58 ∧
    RadonOpCodes.toNat .FloatPower = 0x59 ∧
    RadonOpCodes.toNat .FloatRound = 0x5B ∧
    RadonOpCodes.toNat .FloatTruncate = 0x5D ∧
    RadonOpCodes.toNat .MapKeys = 0x68 ∧
    RadonOpCodes.toNat .StringAsBoolean = 0x70 ∧
    RadonOpCodes.toNat .StringAsFloat = 0x72 ∧
    RadonOpCodes.toNat .StringAsInteger = 0x73 ∧
    RadonOpCodes.toNat .StringLength = 0x74 ∧
    RadonOpCodes.toNat .StringMatch = 0x75 ∧
    RadonOpCodes.toNat .StringToLowerCase = 0x7D ∧
    RadonOpCodes.toNat .StringToUpperCase = 0x7E ∧
    RadonOpCodes.toNat .MixedAsArray = 0x80 ∧
    RadonOpCodes.toNat .MixedAsBoolean = 0x81 ∧
    RadonOpCodes.toNat .MixedAsFloat = 0x82 ∧
    RadonOpCodes.toNat .MixedAsInteger = 0x83 ∧
    RadonOpCodes.toNat .MixedAsMap = 0x84 ∧
    RadonOpCodes.toNat .MixedAsString = 0x85 ∧
    RadonOpCodes.toNat .StringParseJSON = 0xA5 ∧
    RadonOpCodes.toNat .ArrayGet = 0xA6 ∧
    RadonOpCodes.toNat .MapGet = 0xA7 ∧
    RadonOpCodes.toNat .MapValues = 0xA8 ∧
    RadonOpCodes.toNat .Fail = 0xFF ∧
    RadonReducers.toNat .Mode = 0x02 ∧
    RadonReducers.toNat .AverageMean = 0x03 ∧
    RadonReducers.toNat .AverageMedian = 0x05 ∧
    RadonReducers.toNat .DeviationStandard = 0x07 ∧
    RadonReducers.toNat .HashConcatenate = 0x0B ∧
    RadonReducers.toNat .Unwrap = 0x0C := by
  decide

/-- C6: filtering `[Integer 2, Integer 6]` with the subscript
`[IntegerMultiply, 4]` fails with `ArrayFilterWrongSubscript`, whose
stable error kind is `UnsupportedOperator` (0x20) and whose message
states that the subscript output was not a Boolean. -/
theorem filter_multiply_subscript_fails_unsupported_operator :
    arrayFilter (execScript mul4Script)
        [RadonTypes.RadonInteger 2, RadonTypes.RadonInteger 6]
      = Except.error (RadError.ArrayFilterWrongSubscript "RadonTypes::RadonInteger(8)")
    ∧ radErrorCode (RadError.ArrayFilterWrongSubscript "RadonTypes::RadonInteger(8)") = 0x20
    ∧ radErrorMessage (RadError.ArrayFilterWrongSubscript "RadonTypes::RadonInteger(8)")
      = "ArrayFilter subscript output was not RadonBoolean (was `RadonTypes::RadonInteger(8)`)" := by
  exact ⟨rfl, rfl, rfl⟩

/-- C5: reducing `[Float 1, Float 2, Float 2]` with reducer code `0x05`
(`AverageMedian`) yields `UnsupportedReducer` in every context whose
`wip0017` flag is off, and `Float 2.0` in every context whose `wip0017`
flag is on. -/
theorem reduce_median_gated_by_wip0017 (context : ReportContext) :
    (ctxWip0017 context = false →
      arrayReduce specImpls medianInput [Value.Integer 0x05] context
        = Except.error (RadError.UnsupportedReducer medianInput "RadonReducers::AverageMedian"))
    ∧ (ctxWip0017 context = true →
      arrayReduce specImpls medianInput [Value.Integer 0x05] context
        = Except.ok (RadonTypes.RadonFloat 2)) := by
  obtain ⟨aw⟩ := context
  constructor
  · intro h
    cases aw with
    | none => rfl
    | some w =>
      obtain ⟨w17, w19⟩ := w
      cases w17 with
      | false => rfl
      | true => simp [ctxWip0017] at h
  · intro h
    cases aw with
    | none => simp [ctxWip0019, ctxWip0017] at h
    | some w =>
      obtain ⟨w17, w19⟩ := w
      cases w17 with
      | false => simp [ctxWip0017] at h
      | true => rfl

/-- Closed witness for C5: the two gated outcomes at the concrete
contexts with `wip0017` off and on. -/
theorem reduce_median_gated_by_wip0017_witness :
    arrayReduce specImpls medianInput [Value.Integer 0x05] ⟨some ⟨false, false⟩⟩
      = Except.error (RadError.UnsupportedReducer medianInput "RadonReducers::AverageMedian")
    ∧ arrayReduce specImpls medianInput [Value.Integer 0x05] ⟨some ⟨true, false⟩⟩
      = Except.ok (RadonTypes.RadonFloat 2) :=
  ⟨(reduce_median_gated_by_wip0017 ⟨some ⟨false, false⟩⟩).1 rfl,
   (reduce_median_gated_by_wip0017 ⟨some ⟨true, false⟩⟩).2 rfl⟩

/-- C4: a non-empty array whose elements do not all share the head
element's kind reduces to `UnsupportedOpNonHomogeneous`, whatever
reducer code was requested, whatever the feature flags, and whatever the
out-of-`src/` reducer implementations do. -/
theorem reduce_heterogeneous_always_non_homogeneous_error
    (impls : ReducerImpls) (input : List RadonTypes)
    (reducer_code : RadonReducers) (context : ReportContext)
    (hhet : isHomogeneous input = false) (hne : input.isEmpty = false) :
    reducersReduce impls input reducer_code context
      = Except.error (RadError.UnsupportedOpNonHomogeneous reducer_code.display) := by
  simp [reducersReduce, hhet, hne]

/-- Closed witness for C4: the heterogeneous pair `[Integer 1, Float 2]`
with the `AverageMean` reducer and no active flags. -/
theorem reduce_heterogeneous_always_non_homogeneous_error_witness :
    isHomogeneous hetPair = false
    ∧ hetPair.isEmpty = false
    ∧ reducersReduce specImpls hetPair .AverageMean ⟨none⟩
      = Except.error (RadError.UnsupportedOpNonHomogeneous "RadonReducers::AverageMean") :=
  ⟨rfl, rfl,
    reduce_heterogeneous_always_non_homogeneous_error specImpls hetPair .AverageMean ⟨none⟩ rfl rfl⟩

/-- `unwrap` on a singleton returns the element. -/
theorem unwrap_singleton (x : RadonTypes) : unwrap [x] = Except.ok x := rfl

/-- `unwrap` on the empty array is the `UnsupportedReducer` error. -/
theorem unwrap_nil :
    unwrap [] = Except.error (RadError.UnsupportedReducer [] RadonReducers.Unwrap.display) := rfl

/-- `unwrap` on an array of two or more elements is the
`UnsupportedReducer` error. -/
theorem unwrap_two_or_more (x y : RadonTypes) (rest : List RadonTypes) :
    unwrap (x :: y :: rest)
      = Except.error (RadError.UnsupportedReducer (x :: y :: rest) RadonReducers.Unwrap.display) := by
  have hlen : 1 < (x :: y :: rest).length := by
    simp only [List.length_cons]
    omega
  simp [unwrap, hlen]

/-- Corrected C8, proved form: over arrays that pass the homogeneity
gate (homogeneous or empty), reducing with `Unwrap` (0x0C) under an
active `wip0019` returns the single element exactly when the length is
1 and `UnsupportedReducer` for length 0 or greater than 1, and returns
`UnsupportedReducer` for every such array when `wip0019` is inactive —
whatever the out-of-`src/` reducer implementations do. -/
theorem reduce_unwrap_gated_by_wip0019
    (impls : ReducerImpls) (input : List RadonTypes) (context : ReportContext)
    (hgate : (isHomogeneous input || input.isEmpty) = true) :
    (ctxWip0019 context = true →
      (∀ x, input = [x] →
        reducersReduce impls input .Unwrap context = Except.ok x)
      ∧ (input.length ≠ 1 →
        reducersReduce impls input .Unwrap context
          = Except.error (RadError.UnsupportedReducer input "RadonReducers::Unwrap")))
    ∧ (ctxWip0019 context = false →
      reducersReduce impls input .Unwrap context
        = Except.error (RadError.UnsupportedReducer input "RadonReducers::Unwrap")) := by
  obtain ⟨aw⟩ := context
  have hred : reducersReduce impls input .Unwrap ⟨aw⟩
      = match aw with
        | some active_wips =>
          if active_wips.wip0019 then unwrap input
          else Except.error (RadError.UnsupportedReducer input "RadonReducers::Unwrap")
        | none => Except.error (RadError.UnsupportedReducer input "RadonReducers::Unwrap") := by
    simp only [reducersReduce, hgate, if_true]
    rfl
  constructor
  · intro hon
    cases aw with
    | none => simp [ctxWip0019] at hon
    | some w =>
      have hw : w.wip0019 = true := hon
      rw [hred]
      simp only [hw, if_true]
      constructor
      · intro x hx
        rw [hx]
        exact unwrap_singleton x
      · intro hlen
        match input, hlen with
        | [], _ => exact unwrap_nil
        | x :: y :: rest, _ => exact unwrap_two_or_more x y rest
        | [x], h => exact absurd rfl h
  · intro hoff
    cases aw with
    | none => rw [hred]
    | some w =>
      have hw : w.wip0019 = false := hoff
      rw [hred]
      simp [hw]

/-- Closed witness for the corrected C8: a homogeneous singleton, pair
and empty array with `wip0019` on, and the singleton with `wip0019`
off. -/
theorem reduce_unwrap_gated_by_wip0019_witness :
    reducersReduce specImpls [RadonTypes.RadonInteger 7] .Unwrap ⟨some ⟨false, true⟩⟩
      = Except.ok (RadonTypes.RadonInteger 7)
    ∧ reducersReduce specImpls [RadonTypes.RadonInteger 7, RadonTypes.RadonInteger 8] .Unwrap
        ⟨some ⟨false, true⟩⟩
      = Except.error (RadError.UnsupportedReducer
          [RadonTypes.RadonInteger 7, RadonTypes.RadonInteger 8] "RadonReducers::Unwrap")
    ∧ reducersReduce specImpls [] .Unwrap ⟨some ⟨false, true⟩⟩
      = Except.error (RadError.UnsupportedReducer [] "RadonReducers::Unwrap")
    ∧ reducersReduce specImpls [RadonTypes.RadonInteger 7] .Unwrap ⟨some ⟨false, false⟩⟩
      = Except.error (RadError.UnsupportedReducer
          [RadonTypes.RadonInteger 7] "RadonReducers::Unwrap") :=
  ⟨((reduce_unwrap_gated_by_wip0019 specImpls [RadonTypes.RadonInteger 7]
      ⟨some ⟨false, true⟩⟩ rfl).1 rfl).1 (RadonTypes.RadonInteger 7) rfl,
   ((reduce_unwrap_gated_by_wip0019 specImpls
      [RadonTypes.RadonInteger 7, RadonTypes.RadonInteger 8]
      ⟨some ⟨false, true⟩⟩ rfl).1 rfl).2 (by decide),
   ((reduce_unwrap_gated_by_wip0019 specImpls []
      ⟨some ⟨false, true⟩⟩ rfl).1 rfl).2 (by decide),
   (reduce_unwrap_gated_by_wip0019 specImpls [RadonTypes.RadonInteger 7]
      ⟨some ⟨false, false⟩⟩ rfl).2 rfl⟩

/-- Counterexample to C8 as stated: with `Unwrap` requested on the
non-homogeneous pair `[Integer 1, Float 2.0]`, `reduce` returns
`UnsupportedOpNonHomogeneous` — not the `UnsupportedReducer` error the
claim asserts for every array of length greater than 1 (`wip0019`
active) and for every array (`wip0019` inactive). -/
theorem reduce_unwrap_heterogeneous_not_unsupported_reducer :
    reducersReduce specImpls hetPair .Unwrap ⟨some ⟨false, true⟩⟩
      = Except.error (RadError.UnsupportedOpNonHomogeneous "RadonReducers::Unwrap")
    ∧ reducersReduce specImpls hetPair .Unwrap ⟨some ⟨false, false⟩⟩
      = Except.error (RadError.UnsupportedOpNonHomogeneous "RadonReducers::Unwrap")
    ∧ (Except.error (RadError.UnsupportedOpNonHomogeneous "RadonReducers::Unwrap")
        ≠ (Except.error (RadError.UnsupportedReducer hetPair "RadonReducers::Unwrap") :
            Except RadError RadonTypes)) := by
  refine ⟨rfl, rfl, ?_⟩
  intro h
  injection h with h2
  exact RadError.noConfusion h2

/-- C10: `Array.reduce` answers a missing first argument, a first
argument that does not decode as an `i64`, and an integer matching no
`RadonReducers` discriminant all with `WrongArguments` — for every
input array, every context and every implementation of the
out-of-`src/` reducers, so the reducer machinery is never consulted. -/
theorem reduce_bad_argument_is_wrong_arguments
    (impls : ReducerImpls) (input : List RadonTypes) (context : ReportContext) :
    arrayReduce impls input [] context
      = Except.error (RadError.WrongArguments "RadonArray" "Reduce" [])
    ∧ (∀ v : Value, fromValueI64 v = none →
      arrayReduce impls input [v] context
        = Except.error (RadError.WrongArguments "RadonArray" "Reduce" [v]))
    ∧ (∀ n : Int, RadonReducers.fromI64 n = none →
      -(2 ^ 63) ≤ n → n < 2 ^ 63 →
      arrayReduce impls input [Value.Integer n] context
        = Except.error (RadError.WrongArguments "RadonArray" "Reduce" [Value.Integer n])) := by
  refine ⟨rfl, ?_, ?_⟩
  · intro v hv
    simp [arrayReduce, hv]
  · intro n hn hlo hhi
    have hv : fromValueI64 (Value.Integer n) = some n := by
      simp only [fromValueI64]
      rw [if_pos ⟨hlo, hhi⟩]
    simp [arrayReduce, hv, hn]

/-- Closed witness for C10: the source tests' three failing argument
lists — `[]`, `[Text "wrong"]` and `[Integer (-1)]`. -/
theorem reduce_bad_argument_is_wrong_arguments_witness :
    arrayReduce specImpls medianInput [] ⟨none⟩
      = Except.error (RadError.WrongArguments "RadonArray" "Reduce" [])
    ∧ arrayReduce specImpls medianInput [Value.Text "wrong"] ⟨none⟩
      = Except.error (RadError.WrongArguments "RadonArray" "Reduce" [Value.Text "wrong"])
    ∧ arrayReduce specImpls medianInput [Value.Integer (-1)] ⟨none⟩
      = Except.error (RadError.WrongArguments "RadonArray" "Reduce" [Value.Integer (-1)]) :=
  ⟨(reduce_bad_argument_is_wrong_arguments specImpls medianInput ⟨none⟩).1,
   (reduce_bad_argument_is_wrong_arguments specImpls medianInput ⟨none⟩).2.1
     (Value.Text "wrong") rfl,
   (reduce_bad_argument_is_wrong_arguments specImpls medianInput ⟨none⟩).2.2
     (-1) rfl (by decide) (by decide)⟩

/-- C7: `Array.get` with a decoded `i32` index `i` returns the element
at position `i` when `0 ≤ i < length`, and `ArrayIndexNotFound` carrying
`i` when `i` is negative or at least the length.  The length bound is
the one Rust guarantees for any `Vec` (at most `isize::MAX`); it keeps
the `i as usize` wrap-around of a negative index out of range. -/
theorem get_in_range_element_out_of_range_not_found
    (input : List RadonTypes) (i : Int)
    (hlo : -(2 ^ 31) ≤ i) (hhi : i < 2 ^ 31)
    (hlen : (input.length : Int) < 2 ^ 63) :
    (0 ≤ i → ∀ hnat : i.toNat < input.length,
      arrayGet input [Value.Integer i] = Except.ok (input.get ⟨i.toNat, hnat⟩))
    ∧ ((i < 0 ∨ (input.length : Int) ≤ i) →
      arrayGet input [Value.Integer i]
        = Except.error (RadError.ArrayIndexNotFound i)) := by
  have hdec : fromValueI32 (Value.Integer i) = some i := by
    simp only [fromValueI32]
    rw [if_pos ⟨hlo, hhi⟩]
  have h31 : (2 : Int) ^ 31 = 2147483648 := by norm_num
  have h63 : (2 : Int) ^ 63 = 9223372036854775808 := by norm_num
  have h64 : (2 : Int) ^ 64 = 18446744073709551616 := by norm_num
  rw [h31] at hlo hhi
  rw [h63] at hlen
  constructor
  · intro hpos hnat
    have hz : i32AsUsize i = i.toNat := by
      unfold i32AsUsize
      rw [Int.emod_eq_of_lt hpos (by omega)]
    have hsome : input[i.toNat]? = some input[i.toNat] :=
      List.getElem?_eq_getElem hnat
    simp [arrayGet, hdec, hz, hsome]
  · intro hcase
    rcases hcase with hneg | hge
    · have hz : i32AsUsize i = (i + 18446744073709551616).toNat := by
        unfold i32AsUsize
        rw [h64]
        congr 1
        omega
      have hnone : input[(i + 18446744073709551616).toNat]? = none := by
        apply List.getElem?_eq_none
        omega
      simp [arrayGet, hdec, hz, hnone]
    · have hpos : 0 ≤ i := by omega
      have hz : i32AsUsize i = i.toNat := by
        unfold i32AsUsize
        rw [Int.emod_eq_of_lt hpos (by omega)]
      have hnone : input[i.toNat]? = none := by
        apply List.getElem?_eq_none
        omega
      simp [arrayGet, hdec, hz, hnone]

/-- Closed witness for C7: on `[Integer 10, Integer 20]`, index 1 hits,
index -1 and index 5 miss with `ArrayIndexNotFound`. -/
theorem get_in_range_element_out_of_range_not_found_witness :
    arrayGet [RadonTypes.RadonInteger 10, RadonTypes.RadonInteger 20] [Value.Integer 1]
      = Except.ok (RadonTypes.RadonInteger 20)
    ∧ arrayGet [RadonTypes.RadonInteger 10, RadonTypes.RadonInteger 20] [Value.Integer (-1)]
      = Except.error (RadError.ArrayIndexNotFound (-1))
    ∧ arrayGet [RadonTypes.RadonInteger 10, RadonTypes.RadonInteger 20] [Value.Integer 5]
      = Except.error (RadError.ArrayIndexNotFound 5) :=
  ⟨(get_in_range_element_out_of_range_not_found
      [RadonTypes.RadonInteger 10, RadonTypes.RadonInteger 20] 1
      (by norm_num) (by norm_num) (by norm_num)).1 (by norm_num) (by norm_num),
   (get_in_range_element_out_of_range_not_found
      [RadonTypes.RadonInteger 10, RadonTypes.RadonInteger 20] (-1)
      (by norm_num) (by norm_num) (by norm_num)).2 (Or.inl (by norm_num)),
   (get_in_range_element_out_of_range_not_found
      [RadonTypes.RadonInteger 10, RadonTypes.RadonInteger 20] 5
      (by norm_num) (by norm_num) (by norm_num)).2 (Or.inr (by norm_num))⟩

/-- The loop of `filter` keeps exactly the `Boolean(true)` elements when
the subscript yields a Boolean on every element. -/
theorem filterLoop_all_bool (exec : RadonTypes → Except RadError RadonTypes)
    (input : List RadonTypes) :
    (∀ e ∈ input, ∃ b, exec e = Except.ok (RadonTypes.RadonBoolean b)) →
    filterLoop exec input = Except.ok (input.filter fun e =>
      match exec e with
      | Except.ok (RadonTypes.RadonBoolean true) => true
      | _ => false) := by
  induction input with
  | nil => intro _; rfl
  | cons a rest ih =>
    intro h
    obtain ⟨b, hb⟩ := h a (List.mem_cons_self a rest)
    have ih2 := ih fun e he => h e (List.mem_cons_of_mem a he)
    cases b with
    | true => simp [filterLoop, hb, ih2, List.filter_cons]
    | false => simp [filterLoop, hb, ih2, List.filter_cons]

/-- The loop of `filter` aborts with `ArrayFilterWrongSubscript` at the
first element whose subscript result is a non-error, non-Boolean value,
provided every earlier element produced a Boolean. -/
theorem filterLoop_first_non_boolean (exec : RadonTypes → Except RadError RadonTypes)
    (pre : List RadonTypes) :
    ∀ (x v : RadonTypes) (rest : List RadonTypes),
    (∀ e ∈ pre, ∃ b, exec e = Except.ok (RadonTypes.RadonBoolean b)) →
    exec x = Except.ok v → (∀ b, v ≠ RadonTypes.RadonBoolean b) →
    filterLoop exec (pre ++ x :: rest)
      = Except.error (RadError.ArrayFilterWrongSubscript v.display) := by
  induction pre with
  | nil =>
    intro x v rest _ hx hv
    simp only [List.nil_append, filterLoop, hx]
  | cons p ps ih =>
    intro x v rest hpre hx hv
    obtain ⟨b, hb⟩ := hpre p (List.mem_cons_self p ps)
    have ih2 := ih x v rest (fun e he => hpre e (List.mem_cons_of_mem p he)) hx hv
    cases b with
    | true => simp [filterLoop, hb, ih2]
    | false => simp [filterLoop, hb, ih2]

/-- Corrected C2, proved form: when the subscript yields a Boolean on
every element, `Array.filter` returns exactly the elements, in input
order, on which it yields `Boolean(true)`; and when the subscript
yields a non-error, non-Boolean value on some element after yielding
Booleans on all earlier elements, the operation fails with
`ArrayFilterWrongSubscript` carrying that value's rendering. -/
theorem filter_keeps_true_elements_and_rejects_non_boolean
    (exec : RadonTypes → Except RadError RadonTypes) (input : List RadonTypes) :
    ((∀ e ∈ input, ∃ b, exec e = Except.ok (RadonTypes.RadonBoolean b)) →
      arrayFilter exec input = Except.ok (RadonTypes.RadonArray
        (input.filter fun e =>
          match exec e with
          | Except.ok (RadonTypes.RadonBoolean true) => true
          | _ => false)))
    ∧ (∀ (pre : List RadonTypes) (x v : RadonTypes) (rest : List RadonTypes),
      input = pre ++ x :: rest →
      (∀ e ∈ pre, ∃ b, exec e = Except.ok (RadonTypes.RadonBoolean b)) →
      exec x = Except.ok v → (∀ b, v ≠ RadonTypes.RadonBoolean b) →
      arrayFilter exec input
        = Except.error (RadError.ArrayFilterWrongSubscript v.display)) := by
  constructor
  · intro h
    unfold arrayFilter
    rw [filterLoop_all_bool exec input h]
    rfl
  · intro pre x v rest hin hpre hx hv
    unfold arrayFilter
    rw [hin, filterLoop_first_non_boolean exec pre x v rest hpre hx hv]
    rfl

/-- Closed witness for the corrected C2: the source tests'
`test_filter_integer_greater_than` (all-Boolean subscript) and
`test_filter_negative` (integer subscript output) runs. -/
theorem filter_keeps_true_elements_and_rejects_non_boolean_witness :
    arrayFilter (execScript gt4Script)
        [RadonTypes.RadonInteger 2, RadonTypes.RadonInteger 6]
      = Except.ok (RadonTypes.RadonArray [RadonTypes.RadonInteger 6])
    ∧ arrayFilter (execScript mul4Script)
        [RadonTypes.RadonInteger 2, RadonTypes.RadonInteger 6]
      = Except.error (RadError.ArrayFilterWrongSubscript "RadonTypes::RadonInteger(8)") :=
  ⟨(filter_keeps_true_elements_and_rejects_non_boolean (execScript gt4Script)
      [RadonTypes.RadonInteger 2, RadonTypes.RadonInteger 6]).1
      (by
        intro e he
        simp only [List.mem_cons, List.not_mem_nil, or_false] at he
        rcases he with rfl | rfl
        · exact ⟨false, rfl⟩
        · exact ⟨true, rfl⟩),
   (filter_keeps_true_elements_and_rejects_non_boolean (execScript mul4Script)
      [RadonTypes.RadonInteger 2, RadonTypes.RadonInteger 6]).2
      [] (RadonTypes.RadonInteger 2) (RadonTypes.RadonInteger 8) [RadonTypes.RadonInteger 6]
      rfl (by intro e he; exact absurd he (List.not_mem_nil e)) rfl
      (fun b h => RadonTypes.noConfusion h)⟩

/-- Counterexample to C2 as stated: with the subscript
`[IntegerMultiply, 4]` over `[String "x", Integer 5]`, the subscript
yields the non-error, non-Boolean value `Integer 20` on the element
`Integer 5`, yet the operation fails with the `UnsupportedOperator`
error raised on the earlier element — not with
`ArrayFilterWrongSubscript`. -/
theorem filter_error_before_non_boolean_counterexample :
    execScript mul4Script (RadonTypes.RadonInteger 5)
      = Except.ok (RadonTypes.RadonInteger 20)
    ∧ (RadonTypes.RadonInteger 20).kind ≠ RadonKind.KBoolean
    ∧ arrayFilter (execScript mul4Script)
        [RadonTypes.RadonString "x", RadonTypes.RadonInteger 5]
      = Except.error (RadError.UnsupportedOperator "RadonString" "IntegerMultiply")
    ∧ radErrorIsFilterWrongSubscript
        (RadError.UnsupportedOperator "RadonString" "IntegerMultiply") = false := by
  exact ⟨rfl, by decide, rfl, rfl⟩

/-- The loop of `map` returns the per-element subscript results when the
subscript succeeds on every element. -/
theorem mapLoop_all_ok (exec : RadonTypes → Except RadError RadonTypes)
    (input : List RadonTypes) :
    (∀ e ∈ input, exceptIsOk (exec e) = true) →
    mapLoop exec input = Except.ok (input.map fun e => extractOk (exec e)) := by
  induction input with
  | nil => intro _; rfl
  | cons a rest ih =>
    intro h
    have ha := h a (List.mem_cons_self a rest)
    have ih2 := ih fun e he => h e (List.mem_cons_of_mem a he)
    cases hv : exec a with
    | error e => rw [hv] at ha; simp [exceptIsOk] at ha
    | ok v => simp [mapLoop, hv, ih2, extractOk]

/-- Corrected C3, proved form: when the subscript succeeds on every
element, `Array.map` returns an array with one output per input, the
output length equals the input length, and the i-th output is exactly
the subscript's result on the i-th input. -/
theorem map_applies_subscript_elementwise
    (exec : RadonTypes → Except RadError RadonTypes) (input : List RadonTypes)
    (h : ∀ e ∈ input, exceptIsOk (exec e) = true) :
    arrayMap exec input
      = Except.ok (RadonTypes.RadonArray (input.map fun e => extractOk (exec e)))
    ∧ (input.map fun e => extractOk (exec e)).length = input.length
    ∧ ∀ (i : Nat) (hi : i < input.length)
        (ho : i < (input.map fun e => extractOk (exec e)).length),
      exec (input.get ⟨i, hi⟩)
        = Except.ok ((input.map fun e => extractOk (exec e)).get ⟨i, ho⟩) := by
  refine ⟨?_, by simp, ?_⟩
  · unfold arrayMap
    rw [mapLoop_all_ok exec input h]
    rfl
  · intro i hi ho
    have hmem : input.get ⟨i, hi⟩ ∈ input := input.get_mem i hi
    have hok := h _ hmem
    simp only [List.get_eq_getElem, List.getElem_map]
    cases hv : exec (input.get ⟨i, hi⟩) with
    | error e => rw [hv] at hok; simp [exceptIsOk] at hok
    | ok v => simp [extractOk, hv]

/-- Closed witness for C3: §8 scenario 3 — mapping
`[IntegerGreaterThan, 4]` over `[Integer 2, Integer 6]` yields
`[Boolean false, Boolean true]`. -/
theorem map_applies_subscript_elementwise_witness :
    arrayMap (execScript gt4Script)
        [RadonTypes.RadonInteger 2, RadonTypes.RadonInteger 6]
      = Except.ok (RadonTypes.RadonArray
          [RadonTypes.RadonBoolean false, RadonTypes.RadonBoolean true]) :=
  (map_applies_subscript_elementwise (execScript gt4Script)
    [RadonTypes.RadonInteger 2, RadonTypes.RadonInteger 6]
    (by
      intro e he
      simp only [List.mem_cons, List.not_mem_nil, or_false] at he
      rcases he with rfl | rfl
      · rfl
      · rfl)).1

/-- Counterexample to C3 as stated: when the subscript fails on an
element — here `[IntegerMultiply, 4]` on `[String "x"]` — `Array.map`
does not return an array at all; it returns the dispatch error. -/
theorem map_error_no_output_array_counterexample :
    arrayMap (execScript mul4Script) [RadonTypes.RadonString "x"]
      = Except.error (RadError.UnsupportedOperator "RadonString" "IntegerMultiply")
    ∧ exceptIsOk (arrayMap (execScript mul4Script) [RadonTypes.RadonString "x"]) = false := by
  exact ⟨rfl, rfl⟩

/-- The loop of `map` propagates the first subscript error, whatever
follows the failing element. -/
theorem mapLoop_first_error (exec : RadonTypes → Except RadError RadonTypes)
    (pre : List RadonTypes) :
    ∀ (x : RadonTypes) (rest : List RadonTypes) (E : RadError),
    (∀ e ∈ pre, exceptIsOk (exec e) = true) →
    exec x = Except.error E →
    mapLoop exec (pre ++ x :: rest) = Except.error E := by
  induction pre with
  | nil =>
    intro x rest E _ hx
    simp [mapLoop, hx]
  | cons p ps ih =>
    intro x rest E hpre hx
    have hp := hpre p (List.mem_cons_self p ps)
    have ih2 := ih x rest E (fun e he => hpre e (List.mem_cons_of_mem p he)) hx
    cases hv : exec p with
    | error e => rw [hv] at hp; simp [exceptIsOk] at hp
    | ok v => simp [mapLoop, hv, ih2]

/-- C9: when the subscript fails on an element after succeeding on all
earlier ones, `Array.map` fails with exactly that error — no partial
array, no embedded error element — and the result does not depend on
the elements after the failing one (`rest` is arbitrary and
unconstrained). -/
theorem map_propagates_first_subscript_error
    (exec : RadonTypes → Except RadError RadonTypes)
    (pre : List RadonTypes) (x : RadonTypes) (rest : List RadonTypes) (E : RadError)
    (hpre : ∀ e ∈ pre, exceptIsOk (exec e) = true)
    (hx : exec x = Except.error E) :
    arrayMap exec (pre ++ x :: rest) = Except.error E := by
  unfold arrayMap
  rw [mapLoop_first_error exec pre x rest E hpre hx]
  rfl

/-- Closed witness for C9: mapping `[IntegerMultiply, 4]` over
`[Integer 2, String "x", Integer 6]` fails with the dispatch error on
`String "x"`. -/
theorem map_propagates_first_subscript_error_witness :
    arrayMap (execScript mul4Script)
        [RadonTypes.RadonInteger 2, RadonTypes.RadonString "x", RadonTypes.RadonInteger 6]
      = Except.error (RadError.UnsupportedOperator "RadonString" "IntegerMultiply") :=
  map_propagates_first_subscript_error (execScript mul4Script)
    [RadonTypes.RadonInteger 2] (RadonTypes.RadonString "x") [RadonTypes.RadonInteger 6]
    (RadError.UnsupportedOperator "RadonString" "IntegerMultiply")
    (by
      intro e he
      simp only [List.mem_cons, List.not_mem_nil, or_false] at he
      rcases he with rfl
      rfl)
    rfl

end Witnet
